import Mathlib

/-!
Shallow embedding of the weather lookup service (`src/app/main.py`,
`src/app/models.py`) and proofs about it.

Modelling conventions:
* Python strings are `List Char` (`PyStr`); `str.lower()` and `str.strip()`
  are embedded as `pyLower` and `pyStrip` below.
* Numeric JSON payload values (temperature, humidity, wind speed/direction)
  are modelled as `Int`: the service never computes with them, it only
  passes them through; the one operation applied to such a value is
  Python's truthiness test (`humidity or 50`), which on a number is a
  comparison against zero, and that is preserved by the `Int` model.
* Latitude/longitude literals, which all have at most four decimal places,
  are held exactly as `Int` values in units of 1/10000 degree.
* The upstream HTTP interaction is modelled by an explicit outcome value
  (`UpstreamResult`): a raised network exception, or a response carrying a
  status code and a parsed JSON body (`none` for an unparseable body).
* The database table is a list of rows in insertion order; SQL
  `ORDER BY timestamp DESC` is modelled by a stable insertion sort with
  the relation "has timestamp at least as large".
-/

namespace WeatherApp

/-- Python strings, embedded as lists of characters. -/
abbrev PyStr := List Char

/-- `str.lower()` on one character, for the alphabets that occur in the
static tables: ASCII `A`-`Z` and Cyrillic `А`-`Я`/`Ё` map to their
lowercase forms, every other character is unchanged. -/
def pyCharLower (c : Char) : Char :=
  let n := c.toNat
  if 65 ≤ n ∧ n ≤ 90 then Char.ofNat (n + 32)
  else if 0x410 ≤ n ∧ n ≤ 0x42F then Char.ofNat (n + 0x20)
  else if n = 0x401 then Char.ofNat 0x451
  else c

/-- The whitespace characters removed by Python's `str.strip()`. -/
def pyIsSpace (c : Char) : Bool :=
  c == ' ' || c == '\t' || c == '\n' || c == '\r' || c == '\x0b' || c == '\x0c'

/-- `str.lower()`. -/
def pyLower (s : PyStr) : PyStr := s.map pyCharLower

/-- `str.strip()`: drop leading and trailing whitespace. -/
def pyStrip (s : PyStr) : PyStr :=
  ((s.dropWhile pyIsSpace).reverse.dropWhile pyIsSpace).reverse

/-- A latitude/longitude pair, in units of 1/10000 degree. -/
structure Coord where
  lat : Int
  lon : Int
deriving DecidableEq, Repr

/-- The static city-coordinate table `CITY_COORDINATES` of `main.py`. -/
def CITY_COORDINATES : List (PyStr × Coord) :=
  [ ("moscow".toList, ⟨557558, 376173⟩),
    ("london".toList, ⟨515074, -1278⟩),
    ("new york".toList, ⟨407128, -740060⟩),
    ("tokyo".toList, ⟨356762, 1396503⟩),
    ("paris".toList, ⟨488566, 23522⟩),
    ("berlin".toList, ⟨525200, 134050⟩),
    ("киев".toList, ⟨504501, 305234⟩),
    ("санкт-петербург".toList, ⟨599343, 303351⟩),
    ("сочи".toList, ⟨435855, 397231⟩),
    ("казань".toList, ⟨557961, 491064⟩) ]

/-- The static weather-code table `WEATHER_CODES` of `main.py`. -/
def WEATHER_CODES : List (Int × String) :=
  [ (0, "Ясно"),
    (1, "В основном ясно"),
    (2, "Переменная облачность"),
    (3, "Пасмурно"),
    (45, "Туман"),
    (48, "Изморозь"),
    (51, "Легкая морось"),
    (53, "Умеренная морось"),
    (55, "Сильная морось"),
    (56, "Легкая ледяная морось"),
    (57, "Сильная ледяная морось"),
    (61, "Небольшой дождь"),
    (63, "Умеренный дождь"),
    (65, "Сильный дождь"),
    (66, "Легкий ледяной дождь"),
    (67, "Сильный ледяной дождь"),
    (71, "Небольшой снег"),
    (73, "Умеренный снег"),
    (75, "Сильный снег"),
    (77, "Снежные зерна"),
    (80, "Небольшие ливни"),
    (81, "Умеренные ливни"),
    (82, "Сильные ливни"),
    (85, "Небольшие снегопады"),
    (86, "Сильные снегопады"),
    (95, "Гроза"),
    (96, "Гроза с небольшим градом"),
    (99, "Гроза с сильным градом") ]

/-- The hard-coded default coordinates returned by `get_city_coordinates`
for an unknown city (line 97 of `main.py`). -/
def DEFAULT_COORD : Coord := ⟨557558, 376173⟩

/-- `get_city_coordinates` of `main.py`: lower-case, strip, look the name
up in the table, fall back to the default pair. -/
def get_city_coordinates (city : PyStr) : Coord :=
  let city_lower := pyStrip (pyLower city)
  match CITY_COORDINATES.lookup city_lower with
  | some v => v
  | none => DEFAULT_COORD

/-- The `current_weather` JSON block of an Open-Meteo response; each field
is `Option` because accessing a missing key raises `KeyError`. -/
structure CurrentWeather where
  temperature : Option Int
  windspeed : Option Int
  winddirection : Option Int
  weathercode : Option Int
deriving DecidableEq, Repr

/-- The `hourly` JSON block; the code tests key membership before reading
`relativehumidity_2m`, hence the `Option`. -/
structure HourlyBlock where
  relativehumidity_2m : Option (List Int)
deriving DecidableEq, Repr

/-- A parsed Open-Meteo response body. -/
structure OMData where
  current_weather : Option CurrentWeather
  hourly : Option HourlyBlock
deriving DecidableEq, Repr

/-- Outcome of one `requests.get` call to the provider: a raised
`RequestException` (network failure/timeout), or a response with an HTTP
status code and a body (`none` when `response.json()` fails). -/
inductive UpstreamResult where
  | netError : UpstreamResult
  | response (status : Nat) (body : Option OMData) : UpstreamResult
deriving DecidableEq, Repr

/-- The three error classes of the service, as distinguished by the three
`except` clauses of `get_weather_from_openmeteo` (lines 144-149). -/
inductive ErrKind where
  | upstreamUnavailable : ErrKind
  | upstreamMalformed : ErrKind
  | internalError : ErrKind
deriving DecidableEq, Repr

/-- An `HTTPException` carrying its status code and error class. -/
structure HTTPErr where
  status : Nat
  kind : ErrKind
deriving DecidableEq, Repr

/-- The dictionary returned by `get_weather_from_openmeteo` on success. -/
structure WeatherData where
  temperature : Int
  humidity : Int
  description : String
  windspeed : Int
  winddirection : Int
  weathercode : Int
  coordinates : Coord
deriving DecidableEq, Repr

/-- The humidity extraction of lines 127-132: `None` unless `hourly` is
present, holds `relativehumidity_2m`, and that list is non-empty; then the
first entry. -/
def extractHumidity (data : OMData) : Option Int :=
  match data.hourly with
  | none => none
  | some h =>
    match h.relativehumidity_2m with
    | none => none
    | some humidities =>
      match humidities with
      | [] => none
      | x :: _ => some x

/-- Python's `x or d` for an optional number `x`: the default is used when
`x` is `None` and also when `x` is the (falsy) number `0`. -/
def pyOrNum (x : Option Int) (d : Int) : Int :=
  match x with
  | none => d
  | some v => if v = 0 then d else v

/-- `requests.Response.raise_for_status` raises exactly for client-error
(4xx) and server-error (5xx) status codes. -/
def raisesForStatus (status : Nat) : Bool :=
  (400 ≤ status && status < 500) || (500 ≤ status && status < 600)

/-- `get_weather_from_openmeteo` of `main.py`, as a function of the city
and the outcome of its single upstream HTTP call.  A raised
`RequestException` (network failure or `raise_for_status` on a 4xx/5xx
status) maps to a 503 `HTTPException`; a `KeyError` from a missing JSON
field maps to a 500; any other exception (here: a JSON decode failure)
maps to a 500 internal error. -/
def get_weather_from_openmeteo (city : PyStr) (upstream : UpstreamResult) :
    Except HTTPErr WeatherData :=
  let coords := get_city_coordinates city
  match upstream with
  | .netError => .error ⟨503, .upstreamUnavailable⟩
  | .response status body =>
    if raisesForStatus status then .error ⟨503, .upstreamUnavailable⟩
    else
      match body with
      | none => .error ⟨500, .internalError⟩
      | some data =>
        match data.current_weather with
        | none => .error ⟨500, .upstreamMalformed⟩
        | some current =>
          match current.weathercode with
          | none => .error ⟨500, .upstreamMalformed⟩
          | some weather_code =>
            let description := (WEATHER_CODES.lookup weather_code).getD ("Неизвестно")
            let humidity := extractHumidity data
            match current.temperature with
            | none => .error ⟨500, .upstreamMalformed⟩
            | some temperature =>
              match current.windspeed with
              | none => .error ⟨500, .upstreamMalformed⟩
              | some windspeed =>
                match current.winddirection with
                | none => .error ⟨500, .upstreamMalformed⟩
                | some winddirection =>
                  .ok ⟨temperature, pyOrNum humidity 50, description,
                       windspeed, winddirection, weather_code, coords⟩

/-- The single-call structure of the client made explicit: `first` is what
the one `requests.get` call yields, `retries` is what hypothetical further
calls would yield; the source performs no retry, so only `first` is
consulted. -/
def get_weather_calls (city : PyStr) (first : UpstreamResult)
    (retries : List UpstreamResult) : Except HTTPErr WeatherData :=
  get_weather_from_openmeteo city first

/-- A stored row of the `weather_requests` table (`models.py`). -/
structure WRecord where
  id : Int
  city : PyStr
  temperature : Int
  humidity : Int
  description : String
  windspeed : Int
  winddirection : Int
  weathercode : Int
  timestamp : Nat
deriving DecidableEq, Repr

/-- The caller-supplied part of a row, before `id` and `timestamp` are
assigned at insert time. -/
structure WRecordInput where
  city : PyStr
  temperature : Int
  humidity : Int
  description : String
  windspeed : Int
  winddirection : Int
  weathercode : Int
deriving DecidableEq, Repr

/-- The database table state: rows in insertion order. -/
structure DbState where
  rows : List WRecord
deriving DecidableEq, Repr

/-- The next integer primary key the storage engine assigns: one more than
the largest id in the table. -/
def nextId (rows : List WRecord) : Int :=
  (rows.map WRecord.id).foldr max 0 + 1

/-- A single-row insert: assigns `id` (integer primary key) and
`timestamp` (the current time, per the column default `datetime.utcnow`),
appends the row, and returns the stored record. -/
def insertRecord (s : DbState) (now : Nat) (inp : WRecordInput) :
    WRecord × DbState :=
  let stored : WRecord :=
    ⟨nextId s.rows, inp.city, inp.temperature, inp.humidity, inp.description,
     inp.windspeed, inp.winddirection, inp.weathercode, now⟩
  (stored, ⟨s.rows ++ [stored]⟩)

/-- "Timestamp at least as large": the row order produced by
`ORDER BY timestamp DESC`. -/
def tsGE (a b : WRecord) : Prop := b.timestamp ≤ a.timestamp

instance : DecidableRel tsGE := fun a b => inferInstanceAs (Decidable (_ ≤ _))

instance : IsTotal WRecord tsGE := ⟨fun a b => Nat.le_total b.timestamp a.timestamp⟩

instance : IsTrans WRecord tsGE := ⟨fun _ _ _ h h' => Nat.le_trans h' h⟩

/-- The table ordered by `timestamp` descending. -/
def sortDesc (rows : List WRecord) : List WRecord :=
  rows.insertionSort tsGE

/-- The `/history/` query of `main.py` line 208: order by timestamp
descending, `offset(skip)`, `limit(limit)`. -/
def listRecent (rows : List WRecord) (skip limit : Nat) : List WRecord :=
  ((sortDesc rows).drop skip).take limit

/-- One Prometheus metric operation performed by the handler. -/
inductive MetricEvent where
  | count (status : String) : MetricEvent
  | observeLatency : MetricEvent
deriving DecidableEq, Repr

/-- The body returned by `GET /weather/{city}` on success (static fields
`provider` and the response timestamp omitted). -/
structure HandlerResponse where
  city : PyStr
  temperature : Int
  humidity : Int
  description : String
  windspeed : Int
  winddirection : Int
  weathercode : Int
  coordinates : Coord
  id : Int
deriving DecidableEq, Repr

/-- The `GET /weather/{city}` handler: fetch, store, count, observe.
`upstream` is the outcome of the one upstream call, `now` the insert-time
clock reading, `dbFails` whether the database commit raises.  The returned
list records the metric operations in execution order: the counter
increment happens in the `try`/`except` arms, the latency observation in
the `finally` block. -/
def get_weather_by_city (city : PyStr) (upstream : UpstreamResult)
    (db : DbState) (now : Nat) (dbFails : Bool) :
    Except HTTPErr HandlerResponse × DbState × List MetricEvent :=
  match get_weather_from_openmeteo city upstream with
  | .error e => (.error e, db, [.count ("error"), .observeLatency])
  | .ok w =>
    if dbFails then
      (.error ⟨500, .internalError⟩, db, [.count ("error"), .observeLatency])
    else
      let (stored, db') := insertRecord db now
        ⟨city, w.temperature, w.humidity, w.description,
         w.windspeed, w.winddirection, w.weathercode⟩
      (.ok ⟨city, w.temperature, w.humidity, w.description, w.windspeed,
            w.winddirection, w.weathercode, w.coordinates, stored.id⟩,
       db', [.count ("success"), .observeLatency])

/-- Outcome of the health probe's `requests.get` call: a response with a
status code, or a raised exception (timeout, network failure). -/
inductive ProbeOutcome where
  | response (status : Nat) : ProbeOutcome
  | exc : ProbeOutcome
deriving DecidableEq, Repr

/-- The body returned by `GET /health` (static fields omitted). -/
structure HealthResponse where
  status : String
  api_status : String
deriving DecidableEq, Repr

/-- The `/health` handler of `main.py` lines 239-264: `api_status` is
"healthy" exactly on a 200 probe response, "unhealthy" on any other
status, "unreachable" when the probe raises; the top-level `status` is
"healthy" in every case. -/
def health_check (probe : ProbeOutcome) : HealthResponse :=
  match probe with
  | .response status =>
    ⟨"healthy", if status = 200 then ("healthy") else ("unhealthy")⟩
  | .exc => ⟨"healthy", "unreachable"⟩


/-! ### Helper lemmas about association-list lookup -/

/-- In a table with no duplicate keys, membership determines the lookup. -/
theorem lookup_of_mem_nodup {α β : Type} [BEq α] [LawfulBEq α]
    {l : List (α × β)} (hnd : (l.map Prod.fst).Nodup) {k : α} {v : β}
    (hm : (k, v) ∈ l) : l.lookup k = some v := by
  induction l with
  | nil => cases hm
  | cons hd tl ih =>
    obtain ⟨k₁, v₁⟩ := hd
    simp only [List.map_cons, List.nodup_cons] at hnd
    rcases List.mem_cons.mp hm with heq | htl
    · injection heq with hk hv
      subst hk; subst hv
      simp [List.lookup]
    · have hk_ne : (k == k₁) = false := by
        rcases h : k == k₁ with _ | _
        · rfl
        · exfalso
          have : k = k₁ := eq_of_beq h
          subst this
          exact hnd.1 (List.mem_map.mpr ⟨(k, v), htl, rfl⟩)
      simp [List.lookup, hk_ne]
      exact ih hnd.2 htl

/-- A successful lookup returns one of the table's values. -/
theorem lookup_mem_values {α β : Type} [BEq α] [LawfulBEq α]
    {l : List (α × β)} {k : α} {v : β} (h : l.lookup k = some v) :
    v ∈ l.map Prod.snd := by
  induction l with
  | nil => simp [List.lookup] at h
  | cons hd tl ih =>
    obtain ⟨k₁, v₁⟩ := hd
    rcases hbeq : k == k₁ with _ | _
    · simp [List.lookup, hbeq] at h
      exact List.mem_cons_of_mem _ (ih h)
    · simp [List.lookup, hbeq] at h
      subst h
      exact List.mem_cons_self _ _

/-- A successful lookup comes from a pair of the table. -/
theorem lookup_mem_pairs {α β : Type} [BEq α] [LawfulBEq α]
    {l : List (α × β)} {k : α} {v : β} (h : l.lookup k = some v) :
    (k, v) ∈ l := by
  induction l with
  | nil => simp [List.lookup] at h
  | cons hd tl ih =>
    obtain ⟨k₁, v₁⟩ := hd
    rcases hbeq : k == k₁ with _ | _
    · simp [List.lookup, hbeq] at h
      exact List.mem_cons_of_mem _ (ih h)
    · simp [List.lookup, hbeq] at h
      have : k = k₁ := eq_of_beq hbeq
      subst this; subst h
      exact List.mem_cons_self _ _

/-! ### C2: coordinate resolution -/

/-- C2: coordinate resolution lower-cases and strips the input, returns the
exact stored pair for every string whose normal form is a key of the static
table (hence it is case- and whitespace-insensitive on known keys), and
returns the fixed default pair whenever the normal form is not a key; being
a total Lean function, it never fails. -/
theorem C2_city_resolution :
    (∀ s : PyStr, ∀ k v, (k, v) ∈ CITY_COORDINATES →
      pyStrip (pyLower s) = k → get_city_coordinates s = v) ∧
    (∀ s : PyStr, CITY_COORDINATES.lookup (pyStrip (pyLower s)) = none →
      get_city_coordinates s = DEFAULT_COORD) := by
  constructor
  · intro s k v hmem hnorm
    have hnd : (CITY_COORDINATES.map Prod.fst).Nodup := by decide
    have hlk : CITY_COORDINATES.lookup k = some v := lookup_of_mem_nodup hnd hmem
    show (match CITY_COORDINATES.lookup (pyStrip (pyLower s)) with
          | some v => v
          | none => DEFAULT_COORD) = v
    rw [hnorm, hlk]
  · intro s hnone
    show (match CITY_COORDINATES.lookup (pyStrip (pyLower s)) with
          | some v => v
          | none => DEFAULT_COORD) = DEFAULT_COORD
    rw [hnone]

/-- C2 witness: a mixed-case, whitespace-padded Cyrillic key resolves to
its stored pair, and an unknown city resolves to the default pair. -/
theorem C2_city_resolution_witness :
    (("киев".toList, (⟨504501, 305234⟩ : Coord)) ∈ CITY_COORDINATES ∧
      pyStrip (pyLower "  КиеВ ".toList) = "киев".toList ∧
      get_city_coordinates "  КиеВ ".toList = ⟨504501, 305234⟩) ∧
    (CITY_COORDINATES.lookup (pyStrip (pyLower "Atlantis".toList)) = none ∧
      get_city_coordinates "Atlantis".toList = DEFAULT_COORD) :=
  ⟨⟨by decide, by decide,
      C2_city_resolution.1 ("  КиеВ ".toList) ("киев".toList)
        ⟨504501, 305234⟩ (by decide) (by decide)⟩,
    ⟨by decide, C2_city_resolution.2 ("Atlantis".toList) (by decide)⟩⟩

/-! ### C10: the default pair is the moscow entry -/

/-- C10: the hard-coded fallback pair equals the table's entry for the key
"moscow"; hence every resolved pair is a value occurring in the static
table, and every input whose normal form misses the table resolves exactly
as the string "moscow" does. -/
theorem C10_default_pair_is_moscow :
    (("moscow".toList, DEFAULT_COORD) ∈ CITY_COORDINATES) ∧
    (∀ s : PyStr, get_city_coordinates s ∈ CITY_COORDINATES.map Prod.snd) ∧
    (∀ s : PyStr, CITY_COORDINATES.lookup (pyStrip (pyLower s)) = none →
      get_city_coordinates s = get_city_coordinates ("moscow".toList)) := by
  refine ⟨by decide, ?_, ?_⟩
  · intro s
    show (match CITY_COORDINATES.lookup (pyStrip (pyLower s)) with
          | some v => v
          | none => DEFAULT_COORD) ∈ CITY_COORDINATES.map Prod.snd
    cases h : CITY_COORDINATES.lookup (pyStrip (pyLower s)) with
    | none => decide
    | some v => exact lookup_mem_values h
  · intro s hnone
    show (match CITY_COORDINATES.lookup (pyStrip (pyLower s)) with
          | some v => v
          | none => DEFAULT_COORD) = get_city_coordinates ("moscow".toList)
    rw [hnone]
    decide

/-- C10 witness: the unknown city "Nowhere" resolves to the same pair as
"moscow". -/
theorem C10_default_pair_is_moscow_witness :
    CITY_COORDINATES.lookup (pyStrip (pyLower "Nowhere".toList)) = none ∧
    get_city_coordinates "Nowhere".toList = get_city_coordinates ("moscow".toList) :=
  ⟨by decide, C10_default_pair_is_moscow.2.2 _ (by decide)⟩

/-! ### C5: the health endpoint -/

/-- C5: the `/health` handler reports top-level status "healthy" for every
probe outcome, and reports the probe's own outcome in `api_status`:
"healthy" on a 200 response, "unhealthy" on any other status, and
"unreachable" when the probe raises. -/
theorem C5_health_check_outcomes :
    (∀ p : ProbeOutcome, (health_check p).status = "healthy") ∧
    ((health_check .exc).api_status = "unreachable") ∧
    (∀ c : Nat, c = 200 → (health_check (.response c)).api_status = "healthy") ∧
    (∀ c : Nat, c ≠ 200 → (health_check (.response c)).api_status = "unhealthy") := by
  refine ⟨?_, rfl, ?_, ?_⟩
  · intro p; cases p <;> rfl
  · intro c h; subst h; rfl
  · intro c h; simp [health_check, h]

/-- C5 witness: concrete probe outcomes 200, 500 and a raised exception. -/
theorem C5_health_check_outcomes_witness :
    (health_check (.response 200)).status = "healthy" ∧
    (health_check (.response 200)).api_status = "healthy" ∧
    (health_check (.response 500)).api_status = "unhealthy" ∧
    (health_check .exc).status = "healthy" ∧
    (health_check .exc).api_status = "unreachable" :=
  ⟨C5_health_check_outcomes.1 _,
    C5_health_check_outcomes.2.2.1 200 rfl,
    C5_health_check_outcomes.2.2.2 500 (by decide),
    C5_health_check_outcomes.1 _,
    C5_health_check_outcomes.2.1⟩


/-! ### Inversion of a successful weather fetch -/

/-- A successful fetch arises exactly from a non-raising status, a parsed
body whose `current_weather` block carries all four fields, and the result
is built from those fields, the decoded description, the extracted
humidity pushed through Python's `or 50`, and the resolved coordinates. -/
theorem fetch_ok_iff (city : PyStr) (status : Nat) (data : OMData)
    (w : WeatherData) :
    get_weather_from_openmeteo city (.response status (some data)) = .ok w ↔
    raisesForStatus status = false ∧
    ∃ current, data.current_weather = some current ∧
      ∃ wc t ws wd, current.weathercode = some wc ∧
        current.temperature = some t ∧
        current.windspeed = some ws ∧
        current.winddirection = some wd ∧
        w = ⟨t, pyOrNum (extractHumidity data) 50,
             (WEATHER_CODES.lookup wc).getD ("Неизвестно"), ws, wd, wc,
             get_city_coordinates city⟩ := by
  cases hrs : raisesForStatus status with
  | true => simp [get_weather_from_openmeteo, hrs]
  | false =>
    cases hcw : data.current_weather with
    | none => simp [get_weather_from_openmeteo, hrs, hcw]
    | some current =>
      cases hwc : current.weathercode with
      | none => simp [get_weather_from_openmeteo, hrs, hcw, hwc]
      | some wc =>
        cases ht : current.temperature with
        | none => simp [get_weather_from_openmeteo, hrs, hcw, hwc, ht]
        | some t =>
          cases hws : current.windspeed with
          | none => simp [get_weather_from_openmeteo, hrs, hcw, hwc, ht, hws]
          | some ws =>
            cases hwd : current.winddirection with
            | none =>
              simp [get_weather_from_openmeteo, hrs, hcw, hwc, ht, hws, hwd]
            | some wd =>
              simp [get_weather_from_openmeteo, hrs, hcw, hwc, ht, hws, hwd,
                eq_comm]

/-! ### C1: humidity extraction -/

/-- An upstream body whose hourly relative-humidity series is `[0]`. -/
def c1ZeroBody : OMData :=
  ⟨some ⟨some 213, some 51, some 180, some 0⟩, some ⟨some [0]⟩⟩

/-- C1 counterexample: with a present, non-empty humidity series whose
first entry is 0, the stored humidity is 50, not the first entry — the
`or 50` fallback in the source tests Python falsiness, not absence. -/
theorem C1_counterexample :
    extractHumidity c1ZeroBody = some 0 ∧
    (get_weather_from_openmeteo ("london".toList)
        (.response 200 (some c1ZeroBody))).toOption.map WeatherData.humidity
      = some 50 ∧
    (50 : Int) ≠ 0 := by
  refine ⟨by decide, by decide, by decide⟩

/-- C1 amended: on every successful fetch the humidity is the first entry
of the hourly relative-humidity series when that series is present,
non-empty and its first entry is non-zero; it is 50 when the series is
missing, the key is missing, the series is empty, or the first entry is
the falsy number 0. -/
theorem C1_humidity_first_entry_unless_falsy :
    ∀ (city : PyStr) (status : Nat) (data : OMData) (w : WeatherData),
      get_weather_from_openmeteo city (.response status (some data)) = .ok w →
      w.humidity = pyOrNum (extractHumidity data) 50 ∧
      (∀ x xs, data.hourly = some ⟨some (x :: xs)⟩ → x ≠ 0 → w.humidity = x) ∧
      (data.hourly = none → w.humidity = 50) ∧
      (∀ hb, data.hourly = some hb → hb.relativehumidity_2m = none →
        w.humidity = 50) ∧
      (∀ hb, data.hourly = some hb → hb.relativehumidity_2m = some [] →
        w.humidity = 50) ∧
      (∀ x xs, data.hourly = some ⟨some (x :: xs)⟩ → x = 0 →
        w.humidity = 50) := by
  intro city status data w h
  rw [fetch_ok_iff] at h
  obtain ⟨hrs, current, hcw, wc, t, ws, wd, h1, h2, h3, h4, hw⟩ := h
  subst hw
  refine ⟨rfl, ?_, ?_, ?_, ?_, ?_⟩
  · intro x xs hh hx
    simp [extractHumidity, hh, pyOrNum, hx]
  · intro hh
    simp [extractHumidity, hh, pyOrNum]
  · intro hb hh hrh
    simp [extractHumidity, hh, hrh, pyOrNum]
  · intro hb hh hrh
    simp [extractHumidity, hh, hrh, pyOrNum]
  · intro x xs hh hx
    subst hx
    simp [extractHumidity, hh, pyOrNum]

/-- An upstream body whose hourly relative-humidity series is `[77]`. -/
def c1OkBody : OMData :=
  ⟨some ⟨some 213, some 51, some 180, some 0⟩, some ⟨some [77]⟩⟩

/-- The fetch result for `c1OkBody` over the city "london". -/
def c1OkData : WeatherData := ⟨213, 77, "Ясно", 51, 180, 0, ⟨515074, -1278⟩⟩

/-- C1 witness: a concrete successful fetch whose humidity is the series'
first entry 77. -/
theorem C1_humidity_witness :
    get_weather_from_openmeteo ("london".toList)
      (.response 200 (some c1OkBody)) = .ok c1OkData ∧
    c1OkData.humidity = pyOrNum (extractHumidity c1OkBody) 50 ∧
    c1OkData.humidity = 77 :=
  ⟨rfl,
    (C1_humidity_first_entry_unless_falsy ("london".toList) 200 c1OkBody
      c1OkData rfl).1,
    by decide⟩

/-! ### C3: weather-code decoding -/

/-- An upstream body with the unrecognized weather code 42. -/
def c3UnknownBody : OMData :=
  ⟨some ⟨some 213, some 51, some 180, some 42⟩, some ⟨some [55]⟩⟩

/-- C3 counterexample: for a code not in the table, the description is the
source's literal "Неизвестно" (the Russian word for "unknown"), which is
not the string "Unknown". -/
theorem C3_counterexample :
    WEATHER_CODES.lookup 42 = none ∧
    (get_weather_from_openmeteo ("paris".toList)
        (.response 200 (some c3UnknownBody))).toOption.map
        WeatherData.description
      = some ("Неизвестно") ∧
    ("Неизвестно" : String) ≠ "Unknown" := by
  refine ⟨by decide, by decide, by decide⟩

/-- C3 amended: the table maps code 0 to its clear-sky label "Ясно", and
on every successful fetch the description is the table's label for the
returned weather code when the code is a key, and the literal fallback
"Неизвестно" (Russian for "unknown") when it is not. -/
theorem C3_description_decoding :
    WEATHER_CODES.lookup 0 = some ("Ясно") ∧
    ∀ (city : PyStr) (r : UpstreamResult) (w : WeatherData),
      get_weather_from_openmeteo city r = .ok w →
      ((∃ d, (w.weathercode, d) ∈ WEATHER_CODES ∧ w.description = d) ∨
        (WEATHER_CODES.lookup w.weathercode = none ∧
          w.description = "Неизвестно")) := by
  refine ⟨by decide, ?_⟩
  intro city r w h
  cases r with
  | netError => simp [get_weather_from_openmeteo] at h
  | response status body =>
    cases body with
    | none =>
      rcases hrs : raisesForStatus status with _ | _ <;>
        simp [get_weather_from_openmeteo, hrs] at h
    | some data =>
      rw [fetch_ok_iff] at h
      obtain ⟨hrs, current, hcw, wc, t, ws, wd, h1, h2, h3, h4, hw⟩ := h
      subst hw
      cases hl : WEATHER_CODES.lookup wc with
      | none => refine Or.inr ⟨?_, ?_⟩ <;> simp [hl]
      | some d => exact Or.inl ⟨d, by simpa using lookup_mem_pairs hl, by simp [hl]⟩

/-- An upstream body with weather code 0. -/
def c3OkBody : OMData :=
  ⟨some ⟨some 213, some 51, some 180, some 0⟩, some ⟨some [55]⟩⟩

/-- The fetch result for `c3OkBody` over the city "paris". -/
def c3OkData : WeatherData := ⟨213, 55, "Ясно", 51, 180, 0, ⟨488566, 23522⟩⟩

/-- C3 witness: a concrete successful fetch with `weathercode = 0` whose
description is the table's clear-sky label. -/
theorem C3_description_witness :
    get_weather_from_openmeteo ("paris".toList)
      (.response 200 (some c3OkBody)) = .ok c3OkData ∧
    ((∃ d, (c3OkData.weathercode, d) ∈ WEATHER_CODES ∧
        c3OkData.description = d) ∨
      (WEATHER_CODES.lookup c3OkData.weathercode = none ∧
        c3OkData.description = "Неизвестно")) ∧
    c3OkData.description = "Ясно" :=
  ⟨rfl,
    C3_description_decoding.2 ("paris".toList)
      (.response 200 (some c3OkBody)) c3OkData rfl,
    by decide⟩

/-- A well-formed upstream body used by several concrete witnesses. -/
def okBody : OMData :=
  ⟨some ⟨some 213, some 51, some 180, some 0⟩, some ⟨some [55]⟩⟩

/-- The fetch result for `okBody` over the city "paris". -/
def okData : WeatherData := ⟨213, 55, "Ясно", 51, 180, 0, ⟨488566, 23522⟩⟩

/-! ### C4: error classification, status mapping and absence of retries -/

/-- C4: a raised network exception or a 4xx/5xx provider status yields the
503 `UpstreamUnavailable` error; a parsed body missing `current_weather`
yields the 500 `UpstreamMalformed` error; a storage failure after a
successful fetch yields the 500 `InternalError` at the handler; and the
result never depends on what hypothetical further upstream calls would
return — no retry is performed. -/
theorem C4_error_classification :
    (∀ city : PyStr, get_weather_from_openmeteo city .netError
      = .error ⟨503, .upstreamUnavailable⟩) ∧
    (∀ (city : PyStr) (status : Nat) (body : Option OMData),
      raisesForStatus status = true →
      get_weather_from_openmeteo city (.response status body)
        = .error ⟨503, .upstreamUnavailable⟩) ∧
    (∀ (city : PyStr) (status : Nat) (data : OMData),
      raisesForStatus status = false → data.current_weather = none →
      get_weather_from_openmeteo city (.response status (some data))
        = .error ⟨500, .upstreamMalformed⟩) ∧
    (∀ (city : PyStr) (upstream : UpstreamResult) (db : DbState) (now : Nat)
        (w : WeatherData),
      get_weather_from_openmeteo city upstream = .ok w →
      (get_weather_by_city city upstream db now true).1
        = .error ⟨500, .internalError⟩) ∧
    (∀ (city : PyStr) (first : UpstreamResult)
        (retries retries' : List UpstreamResult),
      get_weather_calls city first retries
        = get_weather_calls city first retries') := by
  refine ⟨fun _ => rfl, ?_, ?_, ?_, fun _ _ _ _ => rfl⟩
  · intro city status body h
    simp [get_weather_from_openmeteo, h]
  · intro city status data h hcw
    simp [get_weather_from_openmeteo, h, hcw]
  · intro city upstream db now w h
    simp [get_weather_by_city, h]

/-- C4 witness: concrete cases — a network failure, a 404 status, a body
without `current_weather`, a storage failure, and retry-independence. -/
theorem C4_error_classification_witness :
    get_weather_from_openmeteo ("paris".toList) .netError
      = .error ⟨503, .upstreamUnavailable⟩ ∧
    (raisesForStatus 404 = true ∧
      get_weather_from_openmeteo ("paris".toList) (.response 404 none)
        = .error ⟨503, .upstreamUnavailable⟩) ∧
    (raisesForStatus 200 = false ∧
      (⟨none, none⟩ : OMData).current_weather = none ∧
      get_weather_from_openmeteo ("paris".toList)
          (.response 200 (some ⟨none, none⟩))
        = .error ⟨500, .upstreamMalformed⟩) ∧
    (get_weather_from_openmeteo ("paris".toList)
        (.response 200 (some okBody)) = .ok okData ∧
      (get_weather_by_city ("paris".toList)
          (.response 200 (some okBody)) ⟨[]⟩ 7 true).1
        = .error ⟨500, .internalError⟩) ∧
    get_weather_calls ("paris".toList) .netError [.response 200 none]
      = get_weather_calls ("paris".toList) .netError [] :=
  ⟨C4_error_classification.1 ("paris".toList),
    ⟨by decide,
      C4_error_classification.2.1 ("paris".toList) 404 none (by decide)⟩,
    ⟨by decide, rfl,
      C4_error_classification.2.2.1 ("paris".toList) 200 ⟨none, none⟩
        (by decide) rfl⟩,
    ⟨rfl,
      C4_error_classification.2.2.2.1 ("paris".toList)
        (.response 200 (some okBody)) ⟨[]⟩ 7 okData rfl⟩,
    C4_error_classification.2.2.2.2 ("paris".toList) .netError
      [.response 200 none] []⟩

/-! ### C6: metrics on the `/weather/{city}` handler -/

/-- C6: whenever the handler fails — for any error kind — its metric trace
is exactly a single increment of the "error" counter followed by the
single latency observation (so the increment happens exactly once and
before the observation), and in every execution, failing or not, the
latency histogram is observed exactly once. -/
theorem C6_metrics_error_counting :
    ∀ (city : PyStr) (upstream : UpstreamResult) (db : DbState) (now : Nat)
      (dbFails : Bool),
      (∀ e, (get_weather_by_city city upstream db now dbFails).1 = .error e →
        (get_weather_by_city city upstream db now dbFails).2.2
          = [.count ("error"), .observeLatency]) ∧
      ((get_weather_by_city city upstream db now dbFails).2.2).count
          .observeLatency = 1 := by
  intro city upstream db now dbFails
  cases hf : get_weather_from_openmeteo city upstream with
  | error e =>
    refine ⟨fun _ _ => ?_, ?_⟩ <;> simp [get_weather_by_city, hf, List.count_cons]
  | ok w =>
    cases dbFails with
    | true =>
      refine ⟨fun _ _ => ?_, ?_⟩ <;>
        simp [get_weather_by_city, hf, List.count_cons]
    | false =>
      constructor
      · intro e he
        simp [get_weather_by_city, hf] at he
      · simp [get_weather_by_city, hf, insertRecord, List.count_cons]

/-- C6 witness: a concrete failing call (upstream timeout) produces the
error-then-observe trace, and a concrete successful call still observes
latency exactly once. -/
theorem C6_metrics_error_counting_witness :
    ((get_weather_by_city ("paris".toList) .netError ⟨[]⟩ 7 false).1
        = .error ⟨503, .upstreamUnavailable⟩ ∧
      (get_weather_by_city ("paris".toList) .netError ⟨[]⟩ 7 false).2.2
        = [.count ("error"), .observeLatency]) ∧
    ((get_weather_by_city ("paris".toList)
        (.response 200 (some okBody)) ⟨[]⟩ 7 false).2.2).count
        .observeLatency = 1 :=
  ⟨⟨rfl,
      (C6_metrics_error_counting ("paris".toList) .netError ⟨[]⟩ 7 false).1
        ⟨503, .upstreamUnavailable⟩ rfl⟩,
    (C6_metrics_error_counting ("paris".toList)
      (.response 200 (some okBody)) ⟨[]⟩ 7 false).2⟩

/-! ### C7: the history listing -/

/-- C7: for every table state and every `skip`, `limit`, the history query
is the take-`limit` of the drop-`skip` of the timestamp-descending order,
is itself ordered by timestamp descending, and returns at most `limit`
rows; as a total function it never errors, returning fewer or zero rows
for out-of-range arguments. -/
theorem C7_history_ordering_and_bounds :
    ∀ (rows : List WRecord) (skip limit : Nat),
      listRecent rows skip limit = ((sortDesc rows).drop skip).take limit ∧
      List.Sorted tsGE (listRecent rows skip limit) ∧
      (listRecent rows skip limit).length ≤ limit := by
  intro rows skip limit
  refine ⟨rfl, ?_, List.length_take_le _ _⟩
  have hs : List.Sorted tsGE (sortDesc rows) :=
    List.sorted_insertionSort tsGE rows
  have hsub : (((sortDesc rows).drop skip).take limit).Sublist (sortDesc rows) :=
    (List.take_sublist _ _).trans (List.drop_sublist _ _)
  exact List.Pairwise.sublist hsub hs

/-! ### C8: pagination stability -/

/-- A first stored row, timestamp 100. -/
def c8Row1 : WRecord := ⟨1, "london".toList, 10, 50, "Ясно", 5, 180, 0, 100⟩

/-- A second stored row, timestamp 200. -/
def c8Row2 : WRecord := ⟨2, "paris".toList, 11, 60, "Пасмурно", 6, 90, 3, 200⟩

/-- A two-row table state. -/
def c8Rows : List WRecord := [c8Row1, c8Row2]

/-- C8 counterexample: with two rows and `M = 2`, the page at `skip = 1`
returns a row that the page at the smaller `skip = 0` had already
returned, so pages at arbitrary pairs of skips do overlap. -/
theorem C8_counterexample :
    (0 : Nat) < 1 ∧
    listRecent c8Rows 1 2 = [c8Row1] ∧
    c8Row1 ∈ listRecent c8Rows 0 2 := by
  refine ⟨by decide, by decide, by decide⟩

/-- C8 amended: a page never exceeds `M` rows, and two pages for the same
`M` are disjoint whenever the larger skip is at least the smaller skip
plus `M` (in particular for consecutive pages at multiples of `M`),
provided row ids are distinct; pages whose skips differ by less than `M`
can overlap. -/
theorem C8_pagination_nonoverlap :
    ∀ (rows : List WRecord) (M N N' : Nat),
      (rows.map WRecord.id).Nodup → N' + M ≤ N →
      (listRecent rows N M).length ≤ M ∧
      ∀ x ∈ listRecent rows N M, x ∉ listRecent rows N' M := by
  intro rows M N N' hids hskip
  refine ⟨List.length_take_le _ _, ?_⟩
  set l := sortDesc rows with hldef
  have hrows_nd : rows.Nodup := List.Nodup.of_map WRecord.id hids
  have hlnd : l.Nodup := (List.perm_insertionSort tsGE rows).nodup_iff.mpr hrows_nd
  have hdropnd : (l.drop N').Nodup := (List.drop_sublist N' l).nodup hlnd
  have hsplit : (l.drop N').take M ++ l.drop (N' + M) = l.drop N' := by
    have h1 : l.drop (N' + M) = (l.drop N').drop M := by
      rw [List.drop_drop]
    rw [h1]
    exact List.take_append_drop M (l.drop N')
  have hdisj : ((l.drop N').take M).Disjoint (l.drop (N' + M)) := by
    rw [← hsplit] at hdropnd
    exact (List.nodup_append.mp hdropnd).2.2
  intro x hxN hxN'
  have hx1 : x ∈ l.drop N := List.take_subset _ _ hxN
  have hx2 : x ∈ l.drop (N' + M) := by
    have h2 : l.drop N = (l.drop (N' + M)).drop (N - (N' + M)) := by
      rw [List.drop_drop]
      congr 1
      omega
    rw [h2] at hx1
    exact List.drop_subset _ _ hx1
  exact hdisj hxN' hx2

/-- C8 witness: with `M = 1`, the pages at skips 0 and 1 of a concrete
two-row table are disjoint. -/
theorem C8_pagination_nonoverlap_witness :
    (c8Rows.map WRecord.id).Nodup ∧ 0 + 1 ≤ 1 ∧
    ((listRecent c8Rows 1 1).length ≤ 1 ∧
      ∀ x ∈ listRecent c8Rows 1 1, x ∉ listRecent c8Rows 0 1) :=
  ⟨by decide, by decide,
    C8_pagination_nonoverlap c8Rows 1 1 0 (by decide) (by decide)⟩

/-! ### C9: insert assigns id and timestamp; newest-first retrieval -/

/-- C9: an insert at clock reading `now` (started no earlier than `start`,
with every already-stored timestamp strictly older) assigns the id and the
timestamp, appends exactly the returned record to the table, the returned
record's timestamp is not earlier than the start of the call, and an
immediately following `listRecent 0 1` returns that record first. -/
theorem C9_insert_newest_first :
    ∀ (db : DbState) (start now : Nat) (inp : WRecordInput),
      start ≤ now → (∀ r ∈ db.rows, r.timestamp < now) →
      (insertRecord db now inp).1.id = nextId db.rows ∧
      (insertRecord db now inp).1.timestamp = now ∧
      start ≤ (insertRecord db now inp).1.timestamp ∧
      (insertRecord db now inp).2.rows
        = db.rows ++ [(insertRecord db now inp).1] ∧
      listRecent (insertRecord db now inp).2.rows 0 1
        = [(insertRecord db now inp).1] := by
  intro db start now inp hsn hlt
  refine ⟨rfl, rfl, hsn, rfl, ?_⟩
  set stored := (insertRecord db now inp).1 with hstdef
  have hts : stored.timestamp = now := rfl
  have hperm : (sortDesc (db.rows ++ [stored])).Perm (db.rows ++ [stored]) :=
    List.perm_insertionSort tsGE (db.rows ++ [stored])
  have hsorted : List.Sorted tsGE (sortDesc (db.rows ++ [stored])) :=
    List.sorted_insertionSort tsGE (db.rows ++ [stored])
  have hmem : stored ∈ sortDesc (db.rows ++ [stored]) :=
    hperm.mem_iff.mpr (by simp)
  show ((sortDesc (db.rows ++ [stored])).drop 0).take 1 = [stored]
  rw [List.drop_zero]
  cases hl : sortDesc (db.rows ++ [stored]) with
  | nil => rw [hl] at hmem; cases hmem
  | cons hd tl =>
    rw [hl] at hmem hperm hsorted
    have hhd : hd ∈ db.rows ++ [stored] :=
      hperm.mem_iff.mp (List.mem_cons_self hd tl)
    have hd_eq : hd = stored := by
      rcases List.mem_append.mp hhd with hin | hin
      · exfalso
        have hdlt : hd.timestamp < now := hlt hd hin
        rcases List.mem_cons.mp hmem with heq | hin'
        · rw [← heq] at hdlt
          rw [hts] at hdlt
          exact Nat.lt_irrefl now hdlt
        · have hrel : tsGE hd stored := List.rel_of_sorted_cons hsorted stored hin'
          have : now ≤ hd.timestamp := by
            have h' : stored.timestamp ≤ hd.timestamp := hrel
            rw [hts] at h'
            exact h'
          omega
      · simpa using hin
    subst hd_eq
    rfl

/-- A one-row table whose row carries timestamp 3. -/
def c9Db : DbState := ⟨[⟨1, "london".toList, 10, 50, "Ясно", 5, 180, 0, 3⟩]⟩

/-- The caller-supplied part of the row inserted in the C9 witness. -/
def c9Inp : WRecordInput := ⟨"paris".toList, 11, 60, "Пасмурно", 6, 90, 3⟩

/-- C9 witness: inserting into a concrete one-row table at clock reading
10 (call started at 5) yields the newly stored record first. -/
theorem C9_insert_newest_first_witness :
    5 ≤ 10 ∧ (∀ r ∈ c9Db.rows, r.timestamp < 10) ∧
    ((insertRecord c9Db 10 c9Inp).1.id = nextId c9Db.rows ∧
      (insertRecord c9Db 10 c9Inp).1.timestamp = 10 ∧
      5 ≤ (insertRecord c9Db 10 c9Inp).1.timestamp ∧
      (insertRecord c9Db 10 c9Inp).2.rows
        = c9Db.rows ++ [(insertRecord c9Db 10 c9Inp).1] ∧
      listRecent (insertRecord c9Db 10 c9Inp).2.rows 0 1
        = [(insertRecord c9Db 10 c9Inp).1]) :=
  ⟨by decide, by decide,
    C9_insert_newest_first c9Db 5 10 c9Inp (by decide) (by decide)⟩

end WeatherApp
